import Mathlib

/-!
Verification of the radiator sizing engine of `src/App.tsx`
(HeatMaster ArchQuote).

The engine is embedded shallowly over exact rationals (`ℚ`): JavaScript
numbers are modelled as rationals, `Math.round` as Mathlib's `round`
(both compute `⌊x + 1/2⌋`), `Math.ceil` as `Int.ceil`, and `Math.abs`
as `|·|`.  The catalog selected by `env.specs.series`
(lines 56-60 of `App.tsx`; the spec treats the catalog as an externally
supplied input) is passed to `getEnvRadiatorData` as an explicit list.
-/

/-- The `ValvePosition` enum of `src/App.tsx` (lines 578-582). -/
inductive ValvePosition where
  | BOTTOM
  | RIGHT
  | LEFT
deriving DecidableEq, Repr

/-- The `RadiatorSeries` enum of `src/App.tsx` (lines 584-589). -/
inductive RadiatorSeries where
  | TESI2
  | TESI3
  | TESI4
  | CUSTOM
deriving DecidableEq, Repr

/-- The `RadiatorModel` interface of `src/App.tsx` (lines 610-619); the
optional provenance tags `id`/`series`/`brand` are not used by the
engine and are omitted. -/
structure RadiatorModel where
  label : String
  code : String
  height : ℚ
  interaxis : ℚ
  watts : ℚ
deriving DecidableEq, Repr

/-- The `RadiatorSpecs` interface of `src/App.tsx` (lines 591-608); the
fields `valveWallDistance`, `hasDiaphragm`, `pipeDiameter`,
`pipeMaterial` and `customModelId` are never read by the sizing engine
and are omitted. -/
structure RadiatorSpecs where
  surface : ℚ
  height : ℚ
  valveCenterDistance : ℚ
  valvePosition : ValvePosition
  nicheWidth : ℚ
  nicheHeight : ℚ
  valveHeight : ℚ
  sideValveDistance : ℚ
  maxWidth : ℚ
  manualElements : Option ℚ
  series : RadiatorSeries
deriving DecidableEq, Repr

/-- The `Environment` interface of `src/App.tsx` (lines 621-625). -/
structure Environment where
  id : String
  name : String
  specs : RadiatorSpecs
deriving DecidableEq, Repr

/-- The `CalculationResult` interface of `src/App.tsx` (lines 639-642). -/
structure CalculationResult where
  volume : ℚ
  watts : ℚ
deriving DecidableEq, Repr

/-- The record returned by `getEnvRadiatorData` (`src/App.tsx`,
lines 62-73 and 116-125).  `eccentricText` is the string
"Inserire eccentrici per N mm" in the source; it is modelled as the
reported compensation distance N (in mm), `none` when the source
returns `null`.  The `series` echo field is omitted (it is a verbatim
copy of the input). -/
structure SizingResult where
  model : RadiatorModel
  currentElements : ℚ
  totalLength : ℚ
  totalWatts : ℤ
  requiredWatts : ℤ
  hasClearanceIssue : Bool
  eccentricText : Option ℚ
deriving DecidableEq, Repr

/-- JavaScript `x || 0` on a number: `0` (and `NaN`, not representable
here) is falsy, every other value is returned unchanged. -/
def orZero (x : ℚ) : ℚ := if x = 0 then 0 else x

/-- Function `calculateWatts` of `src/App.tsx` (lines 46-50):
`volume = (surface || 0) * (height || 0)`,
`watts = volume * wattCoefficient / 0.86`. -/
def calculateWatts (wattCoefficient : ℚ) (env : Environment) : CalculationResult :=
  let volume := orZero env.specs.surface * orZero env.specs.height
  { volume := volume, watts := volume * wattCoefficient / 0.86 }

/-- One iteration of the `modelList.forEach` scan of `src/App.tsx`
(lines 77-83): replace the running `(closest, minDiff)` pair exactly
when the new model's distance is strictly smaller. -/
def scanStep (targetInteraxis : ℚ) (acc : RadiatorModel × ℚ) (m : RadiatorModel) :
    RadiatorModel × ℚ :=
  if |targetInteraxis - m.interaxis| < acc.2 then (m, |targetInteraxis - m.interaxis|) else acc

/-- The closest-model scan of `src/App.tsx` (lines 75-83): start from
`modelList[0]` and fold the strict-improvement step over the whole
list. -/
def closestModel (targetInteraxis : ℚ) (hd : RadiatorModel) (tl : List RadiatorModel) :
    RadiatorModel :=
  ((hd :: tl).foldl (scanStep targetInteraxis) (hd, |targetInteraxis - hd.interaxis|)).1

/-- JavaScript `closest.watts || 1` (`src/App.tsx`, line 90): a zero
wattage is replaced by `1` before dividing. -/
def guardedWatts (w : ℚ) : ℚ := if w = 0 then 1 else w

/-- Computation `baseElements = Math.ceil(requiredWatts / (closest.watts || 1))`
(`src/App.tsx`, line 90). -/
def baseElements (requiredWatts w : ℚ) : ℤ := ⌈requiredWatts / guardedWatts w⌉

/-- Flag `needsEccentric` of `src/App.tsx` (line 86): the valve position is
not `BOTTOM` and the interaxis distance to the matched model is
positive. -/
def needsEccentric (vp : ValvePosition) (targetInteraxis modelInteraxis : ℚ) : Bool :=
  decide (vp ≠ ValvePosition.BOTTOM ∧ 0 < |targetInteraxis - modelInteraxis|)

/-- The empty-catalog short-circuit of `getEnvRadiatorData`
(`src/App.tsx`, lines 62-73). -/
def emptyCatalogResult (wattCoefficient : ℚ) (env : Environment) : SizingResult :=
  { model := { label := "N/A", code := "N/A", height := 0, interaxis := 0, watts := 0 }
    currentElements := 0
    totalLength := 0
    totalWatts := 0
    requiredWatts := round (calculateWatts wattCoefficient env).watts
    hasClearanceIssue := false
    eccentricText := none }

/-- Function `getEnvRadiatorData` of `src/App.tsx` (lines 52-126).  `modelList`
is the catalog selected by `env.specs.series` on lines 56-60
(`TESI2_MODELS`/`TESI3_MODELS`/`TESI4_MODELS`/`customModels`), passed
explicitly here since the spec treats the catalog as an input of the
engine. -/
def getEnvRadiatorData (modelList : List RadiatorModel) (wattCoefficient : ℚ)
    (env : Environment) : SizingResult :=
  let targetInteraxis := orZero env.specs.valveCenterDistance
  match modelList with
  | [] => emptyCatalogResult wattCoefficient env
  | hd :: tl =>
    let closest := closestModel targetInteraxis hd tl
    let interaxisDiff := |targetInteraxis - closest.interaxis|
    let eccentric := needsEccentric env.specs.valvePosition targetInteraxis closest.interaxis
    let eccentricText := if eccentric then some interaxisDiff else none
    let requiredWatts := (calculateWatts wattCoefficient env).watts
    let base : ℤ := baseElements requiredWatts closest.watts
    let finalElements : ℚ := env.specs.manualElements.getD (base : ℚ)
    let totalLength := finalElements * 45
    let nicheWidth := env.specs.nicheWidth
    let sideValveDistance := env.specs.sideValveDistance
    let hasClearanceIssue : Bool :=
      if 0 < nicheWidth then
        let eccentricPenalty : ℚ := if eccentric then 50 else 0
        if env.specs.valvePosition = ValvePosition.BOTTOM then
          let totalOccupied := sideValveDistance + 50 + totalLength + 50
          let rightGap := nicheWidth - totalOccupied
          decide (sideValveDistance < 50 ∨ rightGap < 50)
        else
          let totalOccupied := sideValveDistance + 50 + totalLength + eccentricPenalty
          let remainingGap := nicheWidth - totalOccupied
          decide (sideValveDistance < 50 ∨ remainingGap < 50)
      else false
    { model := closest
      currentElements := finalElements
      totalLength := totalLength
      totalWatts := round (finalElements * closest.watts)
      requiredWatts := round requiredWatts
      hasClearanceIssue := hasClearanceIssue
      eccentricText := eccentricText }

/-- JavaScript `x || 0` is the identity on rationals. -/
theorem orZero_eq (x : ℚ) : orZero x = x := by
  unfold orZero; split <;> simp_all

/-! ### Definitional projections of `getEnvRadiatorData` on a non-empty catalog -/

theorem cons_model (hd : RadiatorModel) (tl : List RadiatorModel) (k : ℚ) (env : Environment) :
    (getEnvRadiatorData (hd :: tl) k env).model
      = closestModel (orZero env.specs.valveCenterDistance) hd tl := rfl

theorem cons_currentElements (hd : RadiatorModel) (tl : List RadiatorModel) (k : ℚ)
    (env : Environment) :
    (getEnvRadiatorData (hd :: tl) k env).currentElements
      = env.specs.manualElements.getD
          ((baseElements (calculateWatts k env).watts
              (closestModel (orZero env.specs.valveCenterDistance) hd tl).watts : ℤ) : ℚ) := rfl

theorem cons_totalLength (hd : RadiatorModel) (tl : List RadiatorModel) (k : ℚ)
    (env : Environment) :
    (getEnvRadiatorData (hd :: tl) k env).totalLength
      = (getEnvRadiatorData (hd :: tl) k env).currentElements * 45 := rfl

theorem cons_totalWatts (hd : RadiatorModel) (tl : List RadiatorModel) (k : ℚ)
    (env : Environment) :
    (getEnvRadiatorData (hd :: tl) k env).totalWatts
      = round ((getEnvRadiatorData (hd :: tl) k env).currentElements
          * (getEnvRadiatorData (hd :: tl) k env).model.watts) := rfl

theorem cons_requiredWatts (hd : RadiatorModel) (tl : List RadiatorModel) (k : ℚ)
    (env : Environment) :
    (getEnvRadiatorData (hd :: tl) k env).requiredWatts
      = round ((calculateWatts k env).watts) := rfl

theorem cons_eccentricText (hd : RadiatorModel) (tl : List RadiatorModel) (k : ℚ)
    (env : Environment) :
    (getEnvRadiatorData (hd :: tl) k env).eccentricText
      = (if needsEccentric env.specs.valvePosition (orZero env.specs.valveCenterDistance)
              (getEnvRadiatorData (hd :: tl) k env).model.interaxis
         then some |orZero env.specs.valveCenterDistance
                - (getEnvRadiatorData (hd :: tl) k env).model.interaxis|
         else none) := rfl

theorem cons_hasClearanceIssue (hd : RadiatorModel) (tl : List RadiatorModel) (k : ℚ)
    (env : Environment) :
    (getEnvRadiatorData (hd :: tl) k env).hasClearanceIssue
      = (if 0 < env.specs.nicheWidth then
          if env.specs.valvePosition = ValvePosition.BOTTOM then
            decide (env.specs.sideValveDistance < 50 ∨
              env.specs.nicheWidth - (env.specs.sideValveDistance + 50
                + (getEnvRadiatorData (hd :: tl) k env).totalLength + 50) < 50)
          else
            decide (env.specs.sideValveDistance < 50 ∨
              env.specs.nicheWidth - (env.specs.sideValveDistance + 50
                + (getEnvRadiatorData (hd :: tl) k env).totalLength
                + (if needsEccentric env.specs.valvePosition
                      (orZero env.specs.valveCenterDistance)
                      (getEnvRadiatorData (hd :: tl) k env).model.interaxis
                   then 50 else 0)) < 50)
         else false) := rfl

/-! ### Properties of the closest-model scan -/

/-- The running minimum stays of the form `|t - closest.interaxis|`. -/
theorem scanRun_snd_eq (t : ℚ) (l : List RadiatorModel) :
    ∀ acc : RadiatorModel × ℚ, acc.2 = |t - acc.1.interaxis| →
      (l.foldl (scanStep t) acc).2 = |t - (l.foldl (scanStep t) acc).1.interaxis| := by
  induction l with
  | nil => intro acc h; simpa using h
  | cons a l ih =>
    intro acc h
    rw [List.foldl_cons]
    apply ih
    unfold scanStep
    split <;> simp [h]

/-- The running minimum never increases. -/
theorem scanRun_snd_le_init (t : ℚ) (l : List RadiatorModel) :
    ∀ acc : RadiatorModel × ℚ, (l.foldl (scanStep t) acc).2 ≤ acc.2 := by
  induction l with
  | nil => intro acc; simp
  | cons a l ih =>
    intro acc
    rw [List.foldl_cons]
    refine le_trans (ih _) ?_
    unfold scanStep
    by_cases h : |t - a.interaxis| < acc.2
    · rw [if_pos h]
      exact le_of_lt h
    · rw [if_neg h]

/-- After the scan, the running minimum is at most the distance of
every model in the scanned list. -/
theorem scanRun_snd_le_mem (t : ℚ) (l : List RadiatorModel) :
    ∀ (acc : RadiatorModel × ℚ) (m : RadiatorModel), m ∈ l →
      (l.foldl (scanStep t) acc).2 ≤ |t - m.interaxis| := by
  induction l with
  | nil => intro acc m hm; simp at hm
  | cons a l ih =>
    intro acc m hm
    rw [List.foldl_cons]
    rcases List.mem_cons.mp hm with h | h
    · subst h
      refine le_trans (scanRun_snd_le_init t l _) ?_
      unfold scanStep
      by_cases h : |t - m.interaxis| < acc.2
      · rw [if_pos h]
      · rw [if_neg h]
        exact le_of_not_lt h
    · exact ih _ m h

/-- First-winner structure of the scan: either no model ever strictly
improved on the initial accumulator, or the final winner occurs in the
list preceded only by strictly worse models. -/
theorem scanRun_first (t : ℚ) (l : List RadiatorModel) :
    ∀ acc : RadiatorModel × ℚ, acc.2 = |t - acc.1.interaxis| →
      ((l.foldl (scanStep t) acc).1 = acc.1 ∧
        ∀ m ∈ l, acc.2 ≤ |t - m.interaxis|) ∨
      (∃ pre suf, l = pre ++ (l.foldl (scanStep t) acc).1 :: suf ∧
        |t - (l.foldl (scanStep t) acc).1.interaxis| < acc.2 ∧
        ∀ m ∈ pre, |t - (l.foldl (scanStep t) acc).1.interaxis| < |t - m.interaxis|) := by
  induction l with
  | nil => intro acc _; left; simp
  | cons a l ih =>
    intro acc hacc
    rw [List.foldl_cons]
    by_cases h : |t - a.interaxis| < acc.2
    · have hstep : scanStep t acc a = (a, |t - a.interaxis|) := by
        unfold scanStep; rw [if_pos h]
      rw [hstep]
      rcases ih (a, |t - a.interaxis|) rfl with ⟨heq, _⟩ | ⟨pre, suf, hdec, hlt, hpre⟩
      · right
        exact ⟨[], l, by simp [heq], by rw [heq]; exact h, by simp⟩
      · right
        refine ⟨a :: pre, suf, by rw [List.cons_append, ← hdec], lt_trans hlt h, ?_⟩
        intro m hm
        rcases List.mem_cons.mp hm with hm | hm
        · subst hm; exact hlt
        · exact hpre m hm
    · have hstep : scanStep t acc a = acc := by
        unfold scanStep; rw [if_neg h]
      rw [hstep]
      rcases ih acc hacc with ⟨heq, hall⟩ | ⟨pre, suf, hdec, hlt, hpre⟩
      · left
        refine ⟨heq, ?_⟩
        intro m hm
        rcases List.mem_cons.mp hm with hm | hm
        · subst hm; exact le_of_not_lt h
        · exact hall m hm
      · right
        refine ⟨a :: pre, suf, by rw [List.cons_append, ← hdec], hlt, ?_⟩
        intro m hm
        rcases List.mem_cons.mp hm with hm | hm
        · subst hm; exact lt_of_lt_of_le hlt (le_of_not_lt h)
        · exact hpre m hm

/-- The scan result on a singleton catalog is that single model. -/
theorem closestModel_singleton (t : ℚ) (hd : RadiatorModel) :
    closestModel t hd [] = hd := by
  unfold closestModel scanStep
  simp

/-! ### Concrete fixtures -/

/-- Mirror of `INITIAL_SPECS` of `src/constants.ts`, restricted to the fields the
engine reads (surface 20 m², height 2.7 m, `BOTTOM` valves, zeroed
niche data, no manual override, TESI 3 series). -/
def initialSpecs : RadiatorSpecs :=
  { surface := 20, height := 2.7, valveCenterDistance := 0,
    valvePosition := ValvePosition.BOTTOM, nicheWidth := 0, nicheHeight := 0,
    valveHeight := 0, sideValveDistance := 0, maxWidth := 0,
    manualElements := none, series := RadiatorSeries.TESI3 }

/-- An environment around given specs, as built by `createInitialProject`
in `src/constants.ts`. -/
def mkTestEnv (s : RadiatorSpecs) : Environment :=
  { id := "env-1", name := "Ambiente 1", specs := s }

/-- The default environment: surface 20, height 2.7. -/
def env20 : Environment := mkTestEnv initialSpecs

/-- Environment with surface 10 m², height 2.5 m (spec scenario 6). -/
def env10 : Environment := mkTestEnv { initialSpecs with surface := 10, height := 2.5 }

/-- Catalog entry with interaxis 200 and watts 100 (spec scenario 2). -/
def m200 : RadiatorModel :=
  { label := "200", code := "C200", height := 0, interaxis := 200, watts := 100 }

/-- Catalog entry with interaxis 600 and watts 150 (spec scenarios 2-3). -/
def m600 : RadiatorModel :=
  { label := "600", code := "C600", height := 0, interaxis := 600, watts := 150 }

/-- A zero-wattage catalog entry (spec's zero-watt quirk). -/
def mZero : RadiatorModel :=
  { label := "Z", code := "Z", height := 0, interaxis := 0, watts := 0 }

/-! ### Claims -/

/-- C1: `calculateWatts` returns `volume = surface × height` and
`watts = volume × wattCoefficient / 0.86`; the sizing result reports
`round` of that raw demand; and at surface 20 m², height 2.7 m,
coefficient 30 the volume is 54 m³ and the reported demand 1884 W. -/
theorem C1_heat_load_formula (k : ℚ) (env : Environment) :
    (calculateWatts k env).volume = env.specs.surface * env.specs.height ∧
    (calculateWatts k env).watts = env.specs.surface * env.specs.height * k / 0.86 ∧
    (∀ L : List RadiatorModel,
      (getEnvRadiatorData L k env).requiredWatts = round ((calculateWatts k env).watts)) ∧
    (env.specs.surface = 20 → env.specs.height = 2.7 → k = 30 →
      (calculateWatts k env).volume = 54 ∧ round ((calculateWatts k env).watts) = 1884) := by
  refine ⟨by simp [calculateWatts, orZero_eq], by simp [calculateWatts, orZero_eq], ?_, ?_⟩
  · intro L
    cases L with
    | nil => rfl
    | cons hd tl => rfl
  · intro hs hh hk
    constructor
    · simp [calculateWatts, orZero_eq, hs, hh]
      norm_num
    · simp [calculateWatts, orZero_eq, hs, hh, hk]
      norm_num [round_eq]

/-- Witness for C1 at the default environment (surface 20, height 2.7)
and the default coefficient 30. -/
theorem C1_heat_load_formula_witness :
    (calculateWatts 30 env20).volume = 54 ∧ round ((calculateWatts 30 env20).watts) = 1884 :=
  (C1_heat_load_formula 30 env20).2.2.2 rfl rfl rfl

/-- C2: on a non-empty catalog the matched model belongs to the
catalog, its interaxis distance to the target is minimal, every model
strictly before it in catalog order is strictly farther (first winner
on ties, strict `<` scan), the sizing result exposes exactly that
model, and on the catalog `[{interaxis 200}, {interaxis 600}]` with
target 550 the `interaxis 600` entry is matched. -/
theorem C2_closest_model_first_min (t : ℚ) (hd : RadiatorModel) (tl : List RadiatorModel) :
    closestModel t hd tl ∈ hd :: tl ∧
    (∀ m ∈ hd :: tl, |t - (closestModel t hd tl).interaxis| ≤ |t - m.interaxis|) ∧
    (∃ pre suf, hd :: tl = pre ++ closestModel t hd tl :: suf ∧
      ∀ m ∈ pre, |t - (closestModel t hd tl).interaxis| < |t - m.interaxis|) ∧
    (∀ (k : ℚ) (env : Environment),
      (getEnvRadiatorData (hd :: tl) k env).model
        = closestModel (orZero env.specs.valveCenterDistance) hd tl) ∧
    closestModel 550 m200 [m600] = m600 := by
  have hmin : ∀ m ∈ hd :: tl,
      |t - (closestModel t hd tl).interaxis| ≤ |t - m.interaxis| := by
    intro m hm
    have h1 := scanRun_snd_le_mem t (hd :: tl) (hd, |t - hd.interaxis|) m hm
    have h2 := scanRun_snd_eq t (hd :: tl) (hd, |t - hd.interaxis|) rfl
    rw [h2] at h1
    exact h1
  have hfirst := scanRun_first t (hd :: tl) (hd, |t - hd.interaxis|) rfl
  refine ⟨?_, hmin, ?_, fun k env => rfl, ?_⟩
  · rcases hfirst with ⟨heq, _⟩ | ⟨pre, suf, hdec, _, _⟩
    · rw [show closestModel t hd tl = hd from heq]
      exact List.mem_cons_self hd tl
    · rw [show (hd :: tl : List RadiatorModel)
            = pre ++ closestModel t hd tl :: suf from hdec]
      simp
  · rcases hfirst with ⟨heq, _⟩ | ⟨pre, suf, hdec, _, hpre⟩
    · exact ⟨[], tl, by rw [show closestModel t hd tl = hd from heq]; rfl, by simp⟩
    · exact ⟨pre, suf, hdec, hpre⟩
  · simp [closestModel, scanStep, m200, m600]
    norm_num

/-- Environment for spec scenario 4: `BOTTOM` valves,
`sideValveDistance = 40`, `nicheWidth = 1000`. -/
def envC3 : Environment :=
  mkTestEnv { initialSpecs with nicheWidth := 1000, sideValveDistance := 40 }

/-- C3: with `BOTTOM` valves and a positive niche width, the clearance
issue is raised exactly when `sideValveDistance < 50` or the gap from
the second valve (sitting 50 mm after the body, which starts 50 mm
after the first valve) to the niche's right edge is below 50 mm;
equivalently, with `totalOccupied = sideValveDistance + 50 + bodyLength
+ 50 + 50`, exactly when `sideValveDistance < 50` or `nicheWidth −
totalOccupied < 0`; at `sideValveDistance = 40`, `nicheWidth = 1000`,
`bodyLength = 585` the occupied width is 775 and the issue is raised. -/
theorem C3_bottom_clearance (hd : RadiatorModel) (tl : List RadiatorModel) (k : ℚ)
    (env : Environment) (hvp : env.specs.valvePosition = ValvePosition.BOTTOM)
    (hn : 0 < env.specs.nicheWidth) :
    ((getEnvRadiatorData (hd :: tl) k env).hasClearanceIssue = true ↔
      (env.specs.sideValveDistance < 50 ∨
        env.specs.nicheWidth - (env.specs.sideValveDistance + 50
          + (getEnvRadiatorData (hd :: tl) k env).totalLength + 50) < 50)) ∧
    ((getEnvRadiatorData (hd :: tl) k env).hasClearanceIssue = true ↔
      (env.specs.sideValveDistance < 50 ∨
        env.specs.nicheWidth - (env.specs.sideValveDistance + 50
          + (getEnvRadiatorData (hd :: tl) k env).totalLength + 50 + 50) < 0)) ∧
    (env.specs.sideValveDistance = 40 → env.specs.nicheWidth = 1000 →
      (getEnvRadiatorData (hd :: tl) k env).totalLength = 585 →
      (env.specs.sideValveDistance + 50
          + (getEnvRadiatorData (hd :: tl) k env).totalLength + 50 + 50 = 775 ∧
        (getEnvRadiatorData (hd :: tl) k env).hasClearanceIssue = true)) := by
  have hmain : (getEnvRadiatorData (hd :: tl) k env).hasClearanceIssue
      = decide (env.specs.sideValveDistance < 50 ∨
          env.specs.nicheWidth - (env.specs.sideValveDistance + 50
            + (getEnvRadiatorData (hd :: tl) k env).totalLength + 50) < 50) := by
    rw [cons_hasClearanceIssue, hvp, if_pos hn, if_pos rfl]
  refine ⟨by rw [hmain]; exact decide_eq_true_iff, ?_, ?_⟩
  · rw [hmain, decide_eq_true_iff]
    constructor
    · rintro (h | h)
      · exact Or.inl h
      · exact Or.inr (by linarith)
    · rintro (h | h)
      · exact Or.inl h
      · exact Or.inr (by linarith)
  · intro h40 h1000 h585
    constructor
    · rw [h40, h585]; norm_num
    · rw [hmain, h40, decide_eq_true_iff]
      left
      norm_num

/-- Ceiling fact: the default demand 81000/43 over 150 W elements gives
`⌈540/43⌉ = 13`. -/
theorem ceil_default_over150 : (⌈(540 : ℚ) / 43⌉ : ℤ) = 13 := by
  rw [Int.ceil_eq_iff]
  norm_num

/-- The default 30-coefficient sizing over the singleton catalog
`[m600]` yields 13 elements, hence a 585 mm body, for any environment
with the default surface/height and no manual override; stated for
`envC3`. -/
theorem envC3_totalLength : (getEnvRadiatorData [m600] 30 envC3).totalLength = 585 := by
  rw [cons_totalLength, cons_currentElements,
    closestModel_singleton (orZero envC3.specs.valveCenterDistance) m600]
  have hw : (calculateWatts 30 envC3).watts = (81000 : ℚ) / 43 := by
    simp [calculateWatts, orZero_eq, envC3, mkTestEnv, initialSpecs]
    norm_num
  have hb : baseElements (calculateWatts 30 envC3).watts m600.watts = 13 := by
    rw [hw]
    unfold baseElements guardedWatts m600
    norm_num
    exact ceil_default_over150
  have hm : envC3.specs.manualElements = none := rfl
  rw [hm, Option.getD_none, hb]
  norm_num

/-- Witness for C3 at `envC3` over the catalog `[m600]`. -/
theorem C3_bottom_clearance_witness :
    envC3.specs.sideValveDistance + 50
        + (getEnvRadiatorData [m600] 30 envC3).totalLength + 50 + 50 = 775 ∧
      (getEnvRadiatorData [m600] 30 envC3).hasClearanceIssue = true :=
  (C3_bottom_clearance m600 [] 30 envC3 rfl
    (show (0:ℚ) < envC3.specs.nicheWidth by norm_num [envC3, mkTestEnv, initialSpecs])).2.2
    rfl rfl envC3_totalLength

/-- C4: with `LEFT`/`RIGHT` valves and a positive niche width, the
clearance issue is raised exactly when `sideValveDistance < 50` or
`nicheWidth − totalOccupied < 50` with `totalOccupied =
sideValveDistance + 50 + bodyLength + (needsEccentric ? 50 : 0)`; and
for `nicheWidth ≤ 0` the issue is never raised, for any valve position
and any catalog. -/
theorem C4_side_clearance (hd : RadiatorModel) (tl : List RadiatorModel) (k : ℚ)
    (env : Environment) (hvp : env.specs.valvePosition ≠ ValvePosition.BOTTOM)
    (hn : 0 < env.specs.nicheWidth) :
    ((getEnvRadiatorData (hd :: tl) k env).hasClearanceIssue = true ↔
      (env.specs.sideValveDistance < 50 ∨
        env.specs.nicheWidth - (env.specs.sideValveDistance + 50
          + (getEnvRadiatorData (hd :: tl) k env).totalLength
          + (if needsEccentric env.specs.valvePosition
                (orZero env.specs.valveCenterDistance)
                (getEnvRadiatorData (hd :: tl) k env).model.interaxis
             then 50 else 0)) < 50)) ∧
    (∀ (L : List RadiatorModel) (env' : Environment), env'.specs.nicheWidth ≤ 0 →
      (getEnvRadiatorData L k env').hasClearanceIssue = false) := by
  constructor
  · rw [cons_hasClearanceIssue, if_pos hn, if_neg hvp]
    exact decide_eq_true_iff
  · intro L env' hle
    cases L with
    | nil => rfl
    | cons hd' tl' =>
      rw [cons_hasClearanceIssue, if_neg (not_lt.mpr hle)]

/-- Environment with `LEFT` valves and target interaxis 550 (spec
scenario 5). -/
def envC5 : Environment :=
  mkTestEnv
    { initialSpecs with
        valvePosition := ValvePosition.LEFT
        valveCenterDistance := 550
        nicheWidth := 1000
        sideValveDistance := 60 }

/-- Witness for C4 at `envC5` (LEFT valves, niche 1000 mm) over the
catalog `[m600]`, plus the skip clause at `env20` (niche width 0). -/
theorem C4_side_clearance_witness :
    ((getEnvRadiatorData [m600] 30 envC5).hasClearanceIssue = true ↔
      (envC5.specs.sideValveDistance < 50 ∨
        envC5.specs.nicheWidth - (envC5.specs.sideValveDistance + 50
          + (getEnvRadiatorData [m600] 30 envC5).totalLength
          + (if needsEccentric envC5.specs.valvePosition
                (orZero envC5.specs.valveCenterDistance)
                (getEnvRadiatorData [m600] 30 envC5).model.interaxis
             then 50 else 0)) < 50)) ∧
    (getEnvRadiatorData [m600] 30 env20).hasClearanceIssue = false := by
  have h := C4_side_clearance m600 [] 30 envC5
    (show envC5.specs.valvePosition ≠ ValvePosition.BOTTOM by
      simp [envC5, mkTestEnv, initialSpecs])
    (show (0:ℚ) < envC5.specs.nicheWidth by norm_num [envC5, mkTestEnv, initialSpecs])
  exact ⟨h.1, h.2 [m600] env20 (le_of_eq rfl)⟩

/-- C5: `needsEccentric` holds iff the valve position is not `BOTTOM`
and the absolute interaxis mismatch with the matched model is positive;
it is always `false` for `BOTTOM`; and whenever it holds, the eccentric
note of the sizing result reports exactly that absolute difference in
mm. -/
theorem C5_eccentric_flag (hd : RadiatorModel) (tl : List RadiatorModel) (k : ℚ)
    (env : Environment) :
    (needsEccentric env.specs.valvePosition (orZero env.specs.valveCenterDistance)
        (getEnvRadiatorData (hd :: tl) k env).model.interaxis = true ↔
      (env.specs.valvePosition ≠ ValvePosition.BOTTOM ∧
        0 < |orZero env.specs.valveCenterDistance
          - (getEnvRadiatorData (hd :: tl) k env).model.interaxis|)) ∧
    (env.specs.valvePosition = ValvePosition.BOTTOM →
      needsEccentric env.specs.valvePosition (orZero env.specs.valveCenterDistance)
        (getEnvRadiatorData (hd :: tl) k env).model.interaxis = false) ∧
    ((getEnvRadiatorData (hd :: tl) k env).eccentricText
      = if needsEccentric env.specs.valvePosition (orZero env.specs.valveCenterDistance)
            (getEnvRadiatorData (hd :: tl) k env).model.interaxis
        then some |orZero env.specs.valveCenterDistance
            - (getEnvRadiatorData (hd :: tl) k env).model.interaxis|
        else none) := by
  refine ⟨?_, ?_, cons_eccentricText hd tl k env⟩
  · unfold needsEccentric
    exact decide_eq_true_iff
  · intro h
    unfold needsEccentric
    rw [h]
    simp

/-- Witness for C5: `BOTTOM` valves (default environment) never get the
eccentric flag. -/
theorem C5_eccentric_flag_witness :
    needsEccentric env20.specs.valvePosition (orZero env20.specs.valveCenterDistance)
      (getEnvRadiatorData [m600] 30 env20).model.interaxis = false :=
  (C5_eccentric_flag m600 [] 30 env20).2.1 rfl

/-- C6 counterexample: on the empty catalog with surface 10 m², height
2.5 m, coefficient 30, the engine returns `currentElements = 0`,
whereas the zero-watt-guard derivation from the required watts would
give `⌈872.09…⌉ = 873`; the two differ. -/
theorem C6_counterexample :
    (getEnvRadiatorData [] 30 env10).currentElements = 0 ∧
    baseElements (calculateWatts 30 env10).watts 0 = 873 ∧
    (getEnvRadiatorData [] 30 env10).currentElements
      ≠ ((baseElements (calculateWatts 30 env10).watts 0 : ℤ) : ℚ) := by
  have hw : (calculateWatts 30 env10).watts = (37500 : ℚ) / 43 := by
    simp [calculateWatts, orZero_eq, env10, mkTestEnv, initialSpecs]
    norm_num
  have hb : baseElements (calculateWatts 30 env10).watts 0 = 873 := by
    rw [baseElements, hw]
    unfold guardedWatts
    norm_num
    rw [Int.ceil_eq_iff]
    norm_num
  refine ⟨rfl, hb, ?_⟩
  rw [hb]
  intro h
  rw [show (getEnvRadiatorData [] 30 env10).currentElements = 0 from rfl] at h
  norm_num at h

/-- C6 as amended: the empty-catalog short-circuit returns the
placeholder model inside a zeroed result — `currentElements = 0`,
`totalLength = 0`, `totalWatts = 0`, no clearance issue, no eccentric
note — with `requiredWatts` still the rounded heat-load formula; at
surface 10 m², height 2.5 m, coefficient 30 this gives
`requiredWatts = 872` and `currentElements = 0`. -/
theorem C6_empty_catalog_amended (k : ℚ) (env : Environment) :
    (getEnvRadiatorData [] k env).model
        = { label := "N/A", code := "N/A", height := 0, interaxis := 0, watts := 0 } ∧
    (getEnvRadiatorData [] k env).currentElements = 0 ∧
    (getEnvRadiatorData [] k env).totalLength = 0 ∧
    (getEnvRadiatorData [] k env).totalWatts = 0 ∧
    (getEnvRadiatorData [] k env).hasClearanceIssue = false ∧
    (getEnvRadiatorData [] k env).eccentricText = none ∧
    (getEnvRadiatorData [] k env).requiredWatts = round ((calculateWatts k env).watts) ∧
    (getEnvRadiatorData [] 30 env10).requiredWatts = 872 ∧
    (getEnvRadiatorData [] 30 env10).currentElements = 0 := by
  have hw : (calculateWatts 30 env10).watts = (37500 : ℚ) / 43 := by
    simp [calculateWatts, orZero_eq, env10, mkTestEnv, initialSpecs]
    norm_num
  refine ⟨rfl, rfl, rfl, rfl, rfl, rfl, rfl, ?_, rfl⟩
  rw [show (getEnvRadiatorData [] 30 env10).requiredWatts
      = round ((calculateWatts 30 env10).watts) from rfl, hw]
  norm_num [round_eq]

/-- C7: the element-count computation never divides by zero — the
guarded denominator is never 0 — and a zero model wattage is treated as
1, so `baseElements` silently degrades to `⌈requiredWatts⌉`; in the
sizing result, a matched zero-watt model with no manual override yields
exactly `⌈requiredWatts⌉` elements. -/
theorem C7_division_guard :
    (∀ w : ℚ, guardedWatts w ≠ 0) ∧
    (∀ r : ℚ, baseElements r 0 = ⌈r⌉) ∧
    (∀ (hd : RadiatorModel) (tl : List RadiatorModel) (k : ℚ) (env : Environment),
      env.specs.manualElements = none →
      (getEnvRadiatorData (hd :: tl) k env).model.watts = 0 →
      (getEnvRadiatorData (hd :: tl) k env).currentElements
        = ((⌈(calculateWatts k env).watts⌉ : ℤ) : ℚ)) := by
  refine ⟨?_, ?_, ?_⟩
  · intro w
    unfold guardedWatts
    split
    · norm_num
    · assumption
  · intro r
    unfold baseElements guardedWatts
    norm_num
  · intro hd tl k env hman hw
    rw [cons_model] at hw
    rw [cons_currentElements, hman, Option.getD_none, hw]
    unfold baseElements guardedWatts
    norm_num

/-- Witness for C7 over a singleton zero-watt catalog with the default
environment: the denominator guard is non-zero and the element count is
the bare ceiling of the raw demand. -/
theorem C7_division_guard_witness :
    guardedWatts mZero.watts ≠ 0 ∧
    (getEnvRadiatorData [mZero] 30 env20).currentElements
      = ((⌈(calculateWatts 30 env20).watts⌉ : ℤ) : ℚ) :=
  ⟨C7_division_guard.1 mZero.watts,
   C7_division_guard.2.2 mZero [] 30 env20 rfl
     (by rw [cons_model, closestModel_singleton]; rfl)⟩

/-- Any default-dimension environment (surface 20, height 2.7, no
override) sized over the singleton catalog `[m600]` gets
`⌈(81000/43)/150⌉ = 13` elements. -/
theorem default_currentElements (env : Environment) (hs : env.specs.surface = 20)
    (hh : env.specs.height = 2.7) (hm : env.specs.manualElements = none) :
    (getEnvRadiatorData [m600] 30 env).currentElements = 13 := by
  rw [cons_currentElements, hm, Option.getD_none, closestModel_singleton]
  have hw : (calculateWatts 30 env).watts = (81000 : ℚ) / 43 := by
    simp [calculateWatts, orZero_eq, hs, hh]
    norm_num
  rw [hw]
  unfold baseElements guardedWatts m600
  norm_num
  rw [ceil_default_over150]
  norm_num

/-- Environment with a manual element override of 7. -/
def envManual : Environment := mkTestEnv { initialSpecs with manualElements := some 7 }

/-- C8: `currentElements` is the manual override verbatim whenever one
is present (no re-validation), otherwise `⌈requiredWatts /
model.watts⌉` with the zero-watt guard; `totalLength` is
`currentElements × 45`; and `⌈1884/150⌉ = 13` with the default demand
over a 150 W model giving 13 elements and a 585 mm body. -/
theorem C8_current_elements (hd : RadiatorModel) (tl : List RadiatorModel) (k : ℚ)
    (env : Environment) :
    (∀ N : ℚ, env.specs.manualElements = some N →
      (getEnvRadiatorData (hd :: tl) k env).currentElements = N) ∧
    (env.specs.manualElements = none →
      (getEnvRadiatorData (hd :: tl) k env).currentElements
        = ((baseElements (calculateWatts k env).watts
            (getEnvRadiatorData (hd :: tl) k env).model.watts : ℤ) : ℚ)) ∧
    ((getEnvRadiatorData (hd :: tl) k env).totalLength
      = (getEnvRadiatorData (hd :: tl) k env).currentElements * 45) ∧
    baseElements 1884 150 = 13 ∧
    (getEnvRadiatorData [m600] 30 env20).currentElements = 13 ∧
    (getEnvRadiatorData [m600] 30 env20).totalLength = 585 := by
  have h13 : (getEnvRadiatorData [m600] 30 env20).currentElements = 13 :=
    default_currentElements env20 rfl rfl rfl
  refine ⟨?_, ?_, cons_totalLength hd tl k env, ?_, h13, ?_⟩
  · intro N h
    rw [cons_currentElements, h, Option.getD_some]
  · intro h
    rw [cons_currentElements, h, Option.getD_none, cons_model]
  · unfold baseElements guardedWatts
    norm_num
    rw [Int.ceil_eq_iff]
    norm_num
  · rw [cons_totalLength, h13]
    norm_num

/-- Witness for C8: a manual override of 7 elements is taken verbatim. -/
theorem C8_current_elements_witness :
    (getEnvRadiatorData [m600] 30 envManual).currentElements = 7 :=
  (C8_current_elements m600 [] 30 envManual).1 7 rfl

/-- Environment with surface 1 m², height 2 m. -/
def envA : Environment := mkTestEnv { initialSpecs with surface := 1, height := 2 }

/-- Environment identical to `envA` except for surface 2 m². -/
def envB : Environment := mkTestEnv { initialSpecs with surface := 2, height := 2 }

/-- C9 counterexample: with the (user-settable) coefficient fixed at
−30, `envB` differs from `envA` only by a larger surface, yet its heat
demand — raw and rounded — is strictly smaller: the claimed
monotonicity fails for this settings value. -/
theorem C9_counterexample :
    envA.specs.height = envB.specs.height ∧
    { envB.specs with surface := envA.specs.surface } = envA.specs ∧
    envA.specs.surface ≤ envB.specs.surface ∧
    (calculateWatts (-30) envB).watts < (calculateWatts (-30) envA).watts ∧
    round ((calculateWatts (-30) envB).watts) < round ((calculateWatts (-30) envA).watts) := by
  have hwA : (calculateWatts (-30) envA).watts = -((3000 : ℚ) / 43) := by
    simp [calculateWatts, orZero_eq, envA, mkTestEnv, initialSpecs]
    norm_num
  have hwB : (calculateWatts (-30) envB).watts = -((6000 : ℚ) / 43) := by
    simp [calculateWatts, orZero_eq, envB, mkTestEnv, initialSpecs]
    norm_num
  refine ⟨rfl, rfl, ?_, ?_, ?_⟩
  · show (1 : ℚ) ≤ 2
    norm_num
  · rw [hwA, hwB]
    norm_num
  · rw [hwA, hwB]
    norm_num [round_eq]

/-- C9 as amended: for a fixed non-negative coefficient, the heat
demand (raw and rounded) is non-decreasing in the surface over specs
with non-negative height, and non-decreasing in the height over specs
with non-negative surface. -/
theorem C9_monotone_amended (k : ℚ) (e1 e2 : Environment) (hk : 0 ≤ k) :
    (e1.specs.height = e2.specs.height → 0 ≤ e1.specs.height →
      e1.specs.surface ≤ e2.specs.surface →
      (calculateWatts k e1).watts ≤ (calculateWatts k e2).watts ∧
      round ((calculateWatts k e1).watts) ≤ round ((calculateWatts k e2).watts)) ∧
    (e1.specs.surface = e2.specs.surface → 0 ≤ e1.specs.surface →
      e1.specs.height ≤ e2.specs.height →
      (calculateWatts k e1).watts ≤ (calculateWatts k e2).watts ∧
      round ((calculateWatts k e1).watts) ≤ round ((calculateWatts k e2).watts)) := by
  have hwatts : ∀ env : Environment,
      (calculateWatts k env).watts = env.specs.surface * env.specs.height * k / 0.86 :=
    fun env => by simp [calculateWatts, orZero_eq]
  have hden : (0 : ℚ) < 0.86 := by norm_num
  constructor
  · intro hh h0 hs
    have h0' : 0 ≤ e2.specs.height := hh ▸ h0
    have hbase : e1.specs.surface * e1.specs.height * k
        ≤ e2.specs.surface * e2.specs.height * k := by
      rw [hh]
      exact mul_le_mul_of_nonneg_right (mul_le_mul_of_nonneg_right hs h0') hk
    have hw : (calculateWatts k e1).watts ≤ (calculateWatts k e2).watts := by
      rw [hwatts, hwatts]
      exact (div_le_div_iff_of_pos_right hden).mpr hbase
    refine ⟨hw, ?_⟩
    rw [round_eq, round_eq]
    exact Int.floor_le_floor (by linarith)
  · intro hs h0 hh
    have h0' : 0 ≤ e2.specs.surface := hs ▸ h0
    have hbase : e1.specs.surface * e1.specs.height * k
        ≤ e2.specs.surface * e2.specs.height * k := by
      rw [hs]
      exact mul_le_mul_of_nonneg_right (mul_le_mul_of_nonneg_left hh h0') hk
    have hw : (calculateWatts k e1).watts ≤ (calculateWatts k e2).watts := by
      rw [hwatts, hwatts]
      exact (div_le_div_iff_of_pos_right hden).mpr hbase
    refine ⟨hw, ?_⟩
    rw [round_eq, round_eq]
    exact Int.floor_le_floor (by linarith)

/-- Witness for the amended C9: with coefficient 30, growing the
surface from 1 to 2 m² (height fixed at 2 m) does not decrease the
demand. -/
theorem C9_monotone_amended_witness :
    (calculateWatts 30 envA).watts ≤ (calculateWatts 30 envB).watts ∧
    round ((calculateWatts 30 envA).watts) ≤ round ((calculateWatts 30 envB).watts) :=
  (C9_monotone_amended 30 envA envB (by norm_num)).1 rfl
    (show (0 : ℚ) ≤ 2 by norm_num) (show (1 : ℚ) ≤ 2 by norm_num)

/-- Environment with a manual element override of −3. -/
def envM3 : Environment := mkTestEnv { initialSpecs with manualElements := some (-3) }

/-- C10: the manual-override path performs no range validation: any
numeric override — negative ones included — becomes `currentElements`
verbatim, `totalLength` is 45 × that value and `totalWatts` rounds the
override times the model wattage; so a negative override yields a
negative `totalLength`, and a negative (≤ −1) override against a model
of at least 1 W yields a negative `totalWatts`, with no error and no
clamp to zero. -/
theorem C10_no_override_validation (hd : RadiatorModel) (tl : List RadiatorModel) (k : ℚ)
    (env : Environment) (N : ℚ) (h : env.specs.manualElements = some N) :
    (getEnvRadiatorData (hd :: tl) k env).currentElements = N ∧
    (getEnvRadiatorData (hd :: tl) k env).totalLength = 45 * N ∧
    (getEnvRadiatorData (hd :: tl) k env).totalWatts
      = round (N * (getEnvRadiatorData (hd :: tl) k env).model.watts) ∧
    (N < 0 → (getEnvRadiatorData (hd :: tl) k env).totalLength < 0) ∧
    (N ≤ -1 → 1 ≤ (getEnvRadiatorData (hd :: tl) k env).model.watts →
      (getEnvRadiatorData (hd :: tl) k env).totalWatts < 0) := by
  have hc : (getEnvRadiatorData (hd :: tl) k env).currentElements = N := by
    rw [cons_currentElements, h, Option.getD_some]
  have hl : (getEnvRadiatorData (hd :: tl) k env).totalLength = 45 * N := by
    rw [cons_totalLength, hc, mul_comm]
  refine ⟨hc, hl, ?_, ?_, ?_⟩
  · rw [cons_totalWatts, hc]
  · intro hN
    rw [hl]
    exact mul_neg_of_pos_of_neg (by norm_num) hN
  · intro hN hw
    have h1 : N * (getEnvRadiatorData (hd :: tl) k env).model.watts ≤ -1 := by nlinarith
    have h2 : round (N * (getEnvRadiatorData (hd :: tl) k env).model.watts)
        ≤ round ((-1 : ℚ)) := by
      rw [round_eq, round_eq]
      exact Int.floor_le_floor (by linarith)
    have h3 : round ((-1 : ℚ)) = -1 := by norm_num [round_eq]
    rw [cons_totalWatts, hc]
    omega

/-- Witness for C10: overriding to −3 elements over `[m600]` yields a
negative body length and negative total wattage. -/
theorem C10_no_override_validation_witness :
    (getEnvRadiatorData [m600] 30 envM3).totalLength < 0 ∧
    (getEnvRadiatorData [m600] 30 envM3).totalWatts < 0 :=
  ⟨(C10_no_override_validation m600 [] 30 envM3 (-3) rfl).2.2.2.1 (by norm_num),
   (C10_no_override_validation m600 [] 30 envM3 (-3) rfl).2.2.2.2 (by norm_num)
     (by rw [cons_model, closestModel_singleton]; norm_num [m600])⟩

/-- Witness for C2 at target 550 over the two-entry catalog: the
matched model is at least as close as the first entry. -/
theorem C2_closest_model_first_min_witness :
    |(550 : ℚ) - (closestModel 550 m200 [m600]).interaxis| ≤ |(550 : ℚ) - m200.interaxis| :=
  (C2_closest_model_first_min 550 m200 [m600]).2.1 m200 (List.mem_cons_self m200 [m600])
